import Mathlib

/-!
Shallow embedding of the Windhawk mod `auto-dark-titlebar`
(src/mods/asteski-auto-dark-titlebar.wh.cpp).

The mod's mutable process state (the three statics `g_ShouldSystemUseDarkMode`,
`g_isDarkMode`, `isExcluded`, together with the window system it mutates and the
diagnostic log) is modelled as an explicit state record `St` threaded through
every function.  Read-only OS inputs (registry contents, module availability,
the probe's return value, the executable path, the original function pointers
obtained from the hooking framework) are collected in a context record `Ctx`.

Each OS primitive the code calls (IsWindow, GetWindowLongW, GetAncestor,
GetWindowThreadProcessId, DwmSetWindowAttribute, SetWindowPos, EnumWindows,
Wh_Log, registry reads, GetProcAddress) is given a small model definition, and
each function of the mod is translated line by line on top of those models.
`DwmSetWindowAttribute` additionally counts how often it is invoked
(`attrSetCalls`) and `Wh_Log` counts emitted log lines (`logCount`), so that
the specification's statements about "attribute-set calls" and logging are
directly observable in the state.
-/

namespace AutoDark

/-! Win32 constants used by the source -/

def WS_CAPTION : Nat := 0xC00000
def WS_EX_TOOLWINDOW : Nat := 0x80
def WS_CHILD : Nat := 0x40000000
def WM_DWMCOLORIZATIONCOLORCHANGED : Nat := 0x0320
def WM_SETTINGCHANGE : Nat := 0x001A
def DWMWA_USE_IMMERSIVE_DARK_MODE : Nat := 20

/-! Data model -/

/-- OS-determined facts about one window that the mod only reads, never
writes: its handle, liveness, styles, ancestor, owning thread/process, and
whether a `DwmSetWindowAttribute` call on it fails. -/
structure WinInfo where
  hwnd : Nat
  live : Bool
  style : Nat
  exStyle : Nat
  gaParent : Nat
  threadId : Nat
  pid : Nat
  dwmFails : Bool
deriving DecidableEq, Repr

/-- One window: its immutable OS facts plus the state the mod mutates
(the immersive-dark-mode attribute and a redraw counter standing for
`SetWindowPos` frame-change requests). -/
structure Window where
  info : WinInfo
  darkAttr : Bool
  redrawCount : Nat
deriving DecidableEq, Repr

/-- The mutable process state: the three static variables of the source,
the window system, and the instrumentation counters. -/
structure St where
  /-- Whether `g_ShouldSystemUseDarkMode` is non-null: the memoized probe pointer. -/
  gProbe : Bool
  /-- The static `g_isDarkMode`: the cached theme state. -/
  gIsDarkMode : Bool
  /-- the static `isExcluded` of `IsProcessExcluded` (`none` = `-1`). -/
  exclCache : Option Bool
  windows : List Window
  /-- number of `DwmSetWindowAttribute` invocations so far. -/
  attrSetCalls : Nat
  /-- number of `Wh_Log` lines emitted so far. -/
  logCount : Nat
deriving DecidableEq, Repr

/-- Arguments of `NtUserCreateWindowEx`, passed through to the original. -/
structure CreateArgs where
  dwExStyle : Nat
  pClassName : Nat
  pWindowName : Nat
  pWindowNameU : Nat
  dwStyle : Nat
  x : Int
  y : Int
  nWidth : Int
  nHeight : Int
  hWndParent : Nat
  hMenu : Nat
  hInstanceArg : Nat
  lpParam : Nat
  dwShowMode : Nat
  dwUnknown1 : Nat
  dwUnknown2 : Nat
  qwUnknown3 : Nat
deriving DecidableEq, Repr

/-- Read-only inputs: registry state, module/probe availability, the probe's
return value, the executable path, the desktop handle, the current process id,
and the original entry points the hooks delegate to. -/
structure Ctx where
  desktop : Nat
  currentPid : Nat
  /-- Whether `RegOpenKeyExW` on the Personalize key succeeds. -/
  regOpenOk : Bool
  /-- Result of `RegQueryValueExW` on `AppsUseLightTheme`: `some v` on success. -/
  regQuery : Option Nat
  /-- Whether `GetModuleHandleW` finds uxtheme.dll loaded. -/
  uxthemeLoaded : Bool
  /-- Whether `GetProcAddress` resolves ordinal 138 to a non-null pointer. -/
  probeAvail : Bool
  /-- the value returned by calling `ShouldSystemUseDarkMode()`. -/
  probeRet : Int
  /-- Result of `GetModuleFileNameW` (`none` = the call fails). -/
  exePath : Option String
  /-- Whether `GetModuleHandleW` finds win32u.dll loaded. -/
  win32uLoaded : Bool
  /-- Whether `GetProcAddress` resolves NtUserCreateWindowEx. -/
  ntUserCreateAddrOk : Bool
  origDefWindowProc : Nat → Nat → Nat → Nat → Nat
  origCreateWindow : CreateArgs → St → Nat × St

/-! Modelled OS primitives -/

/-- Resolve a window handle against the window system. -/
def findWin (s : St) (h : Nat) : Option Window :=
  s.windows.find? (fun w => w.info.hwnd == h)

/-- Model of `IsWindow`: the handle refers to a live window. -/
def isWindow (s : St) (h : Nat) : Bool :=
  match findWin s h with
  | some w => w.info.live
  | none => false

/-- Model of `GetWindowLongW` with `GWL_STYLE`. -/
def getWindowLongStyle (s : St) (h : Nat) : Nat :=
  match findWin s h with
  | some w => w.info.style
  | none => 0

/-- Model of `GetWindowLongW` with `GWL_EXSTYLE`. -/
def getWindowLongExStyle (s : St) (h : Nat) : Nat :=
  match findWin s h with
  | some w => w.info.exStyle
  | none => 0

/-- Model of `GetAncestor` with `GA_PARENT`. -/
def getAncestorParent (s : St) (h : Nat) : Nat :=
  match findWin s h with
  | some w => w.info.gaParent
  | none => 0

/-- The return value of `GetWindowThreadProcessId` (0 = failure). -/
def getWindowThreadId (s : St) (h : Nat) : Nat :=
  match findWin s h with
  | some w => w.info.threadId
  | none => 0

/-- The process id written by `GetWindowThreadProcessId`. -/
def getWindowPid (s : St) (h : Nat) : Nat :=
  match findWin s h with
  | some w => w.info.pid
  | none => 0

/-- Model of `Wh_Log`: emit one diagnostic line. -/
def whLog (s : St) : St :=
  { s with logCount := s.logCount + 1 }

/-- Model of `DwmSetWindowAttribute` on the immersive-dark-mode attribute:
counts the call, and on success stores the attribute on the window. -/
def dwmSetWindowAttribute (s : St) (h : Nat) (b : Bool) : Bool × St :=
  let s1 := { s with attrSetCalls := s.attrSetCalls + 1 }
  match findWin s h with
  | none => (false, s1)
  | some w =>
    if w.info.dwmFails then (false, s1)
    else
      (true, { s1 with windows :=
                 s1.windows.map (fun v => if v.info.hwnd == h then { v with darkAttr := b } else v) })

/-- Model of `SetWindowPos` with SWP_FRAMECHANGED and the no-move flags:
a pure frame-change redraw request on the window. -/
def setWindowPosFrameChanged (s : St) (h : Nat) : St :=
  { s with windows :=
      s.windows.map (fun v => if v.info.hwnd == h then { v with redrawCount := v.redrawCount + 1 } else v) }

/-! The mod's functions (lines 46-331 of the source) -/

/-- The fallback of `IsSystemDarkMode` (source lines 64-78): resolve the
uxtheme probe on demand, memoize a successful resolution in
`g_ShouldSystemUseDarkMode`, call it if present, else return `FALSE`.
The third component records whether the resolution block ran
(`GetModuleHandleW(L"uxtheme.dll")` was called). -/
def isSystemDarkModeFallback (ctx : Ctx) (s : St) : Bool × St × Bool :=
  let p :=
    if !s.gProbe then
      (if ctx.uxthemeLoaded then { s with gProbe := ctx.probeAvail } else s, true)
    else (s, false)
  if p.1.gProbe then (decide (ctx.probeRet ≠ 0), p.1, p.2)
  else (false, p.1, p.2)

/-- Model of `IsSystemDarkMode` (source lines 46-79): registry read first
(`AppsUseLightTheme`: 0 = dark), fallback to the uxtheme probe.
Returns (result, updated state, whether a probe resolution was attempted). -/
def isSystemDarkMode (ctx : Ctx) (s : St) : Bool × St × Bool :=
  if ctx.regOpenOk then
    match ctx.regQuery with
    | some value => (value == 0, s, false)
    | none => isSystemDarkModeFallback ctx s
  else isSystemDarkModeFallback ctx s

/-- Model of `towlower`, applied characterwise to the base name. -/
def towlower (c : Char) : Char := c.toLower

/-- The base-name extraction of `IsProcessExcluded` (source lines 96-106):
everything after the last backslash, lowercased. -/
def baseNameLower (path : String) : String :=
  let cs := path.toList
  let base := (cs.reverse.takeWhile (fun c => c != '\\')).reverse
  String.mk (base.map towlower)

/-- The compiled-in denylist (source lines 109-113). -/
def excludedProcesses : List String :=
  ["systemsettings.exe", "applicationframehost.exe"]

/-- Model of `IsProcessExcluded` (source lines 82-125): first-call-wins memoized
exclusion decision; a failed `GetModuleFileNameW` caches "not excluded".
Returns (result, updated state, whether the executable name was queried). -/
def isProcessExcluded (ctx : Ctx) (s : St) : Bool × St × Bool :=
  match s.exclCache with
  | some b => (b, s, false)
  | none =>
    match ctx.exePath with
    | none => (false, { s with exclCache := some false }, true)
    | some path =>
      let fileName := baseNameLower path
      if excludedProcesses.contains fileName then
        (true, whLog { s with exclCache := some true }, true)
      else
        (false, { s with exclCache := some false }, true)

/-- Model of `IsWindowEligible` (source lines 128-149). -/
def isWindowEligible (s : St) (h : Nat) : Bool :=
  if h == 0 || !isWindow s h then false
  else
    let style := getWindowLongStyle s h
    let exStyle := getWindowLongExStyle s h
    if style &&& WS_CAPTION == 0 then false
    else if exStyle &&& WS_EX_TOOLWINDOW != 0 then false
    else if style &&& WS_CHILD != 0 then false
    else true

/-- Model of `ApplyDarkMode` (source lines 152-166): eligibility gate, one
`DwmSetWindowAttribute` call, and on success a frame-change redraw plus a
log line; on failure nothing further happens. -/
def applyDarkMode (s : St) (h : Nat) (b : Bool) : St :=
  if !isWindowEligible s h then s
  else
    let r := dwmSetWindowAttribute s h b
    if r.1 then whLog (setWindowPosFrameChanged r.2 h) else r.2

/-- Model of `NewWindowShown` (source lines 169-181). -/
def newWindowShown (ctx : Ctx) (s : St) (h : Nat) : St :=
  let r := isProcessExcluded ctx s
  if r.1 then r.2.1
  else if h == 0 || !isWindow r.2.1 h then r.2.1
  else if !isWindowEligible r.2.1 h then r.2.1
  else applyDarkMode (whLog r.2.1) h (whLog r.2.1).gIsDarkMode

/-- Model of `EnumWindowsProc` (source lines 184-200): skip non-top-level windows and
windows of other processes, then `ApplyDarkMode`. -/
def enumWindowsProc (ctx : Ctx) (b : Bool) (s : St) (h : Nat) : St :=
  let hParentWnd := getAncestorParent s h
  if hParentWnd != 0 && hParentWnd != ctx.desktop then s
  else if getWindowThreadId s h == 0 || getWindowPid s h != ctx.currentPid then s
  else applyDarkMode s h b

/-- Model of `ApplyToAllWindows` (source lines 203-205): `EnumWindows` over a snapshot
of all window handles, with `EnumWindowsProc` as the callback. -/
def applyToAllWindows (ctx : Ctx) (s : St) (b : Bool) : St :=
  (s.windows.map (fun w => w.info.hwnd)).foldl (enumWindowsProc ctx b) s

/-- Model of `DefWindowProc_hook` (source lines 211-227). -/
def defWindowProc_hook (ctx : Ctx) (s : St) (hWnd Msg wParam lParam : Nat) : Nat × St :=
  let r := isProcessExcluded ctx s
  let s2 :=
    if !r.1 && (Msg == WM_DWMCOLORIZATIONCOLORCHANGED || Msg == WM_SETTINGCHANGE) then
      let q := isSystemDarkMode ctx r.2.1
      if q.1 != q.2.1.gIsDarkMode then
        let s3 := whLog { q.2.1 with gIsDarkMode := q.1 }
        applyToAllWindows ctx s3 s3.gIsDarkMode
      else q.2.1
    else r.2.1
  (ctx.origDefWindowProc hWnd Msg wParam lParam, s2)

/-- Model of `NtUserCreateWindowEx_hook` (source lines 238-255): delegate to the
original first, then run the new-window path on a non-null result. -/
def ntUserCreateWindowEx_hook (ctx : Ctx) (s : St) (a : CreateArgs) : Nat × St :=
  let p := ctx.origCreateWindow a s
  let s2 := if p.1 != 0 then newWindowShown ctx p.2 p.1 else p.2
  (p.1, s2)

/-- Model of `Wh_ModInit` (source lines 258-306), with every `Wh_Log` counted. -/
def wh_ModInit (ctx : Ctx) (s : St) : Bool × St :=
  let s0 := whLog (whLog s)
  let r := isProcessExcluded ctx s0
  if r.1 then (true, whLog (whLog r.2.1))
  else
    let q := isSystemDarkMode ctx r.2.1
    let s1 := whLog { q.2.1 with gIsDarkMode := q.1 }
    let s2 := whLog s1
    if !ctx.win32uLoaded then (true, whLog s2)
    else if !ctx.ntUserCreateAddrOk then (true, whLog s2)
    else (true, whLog (whLog (whLog s2)))

/-- Model of `Wh_ModAfterInit` (source lines 309-317). -/
def wh_ModAfterInit (ctx : Ctx) (s : St) : St :=
  let r := isProcessExcluded ctx s
  if r.1 then r.2.1
  else
    let s1 := whLog r.2.1
    whLog (applyToAllWindows ctx s1 s1.gIsDarkMode)

/-- Model of `Wh_ModUninit` (source lines 320-331). -/
def wh_ModUninit (ctx : Ctx) (s : St) : St :=
  let r := isProcessExcluded ctx s
  if r.1 then r.2.1
  else
    let s1 := whLog r.2.1
    whLog (applyToAllWindows ctx s1 false)

/-! Semantic layer: per-window predicates and characterizations

`infos` projects the OS-determined facts out of the window list; the mod
never changes them, which makes the enumeration pass analyzable one window
at a time. -/

def infos (s : St) : List WinInfo := s.windows.map (fun w => w.info)

def findInfo (I : List WinInfo) (h : Nat) : Option WinInfo :=
  I.find? (fun i => i.hwnd == h)

/-- The eligibility conditions of `IsWindowEligible`, phrased on the window's
OS facts: live non-null handle, captioned, not a tool window, not a child. -/
def eligInfo (h : Nat) (i : WinInfo) : Bool :=
  !(h == 0 || !i.live) && !(i.style &&& WS_CAPTION == 0) &&
  !(i.exStyle &&& WS_EX_TOOLWINDOW != 0) && !(i.style &&& WS_CHILD != 0)

/-- A window on which one enumeration pass invokes `DwmSetWindowAttribute`:
it passes the top-level filter, the current-process filter, and the
eligibility check of `ApplyDarkMode`. -/
def hitW (ctx : Ctx) (i : WinInfo) : Bool :=
  !(i.gaParent != 0 && i.gaParent != ctx.desktop) &&
  !(i.threadId == 0 || i.pid != ctx.currentPid) && eligInfo i.hwnd i

/-- A window whose attribute one enumeration pass actually updates:
a `hitW` window whose `DwmSetWindowAttribute` call succeeds. -/
def succW (ctx : Ctx) (i : WinInfo) : Bool := hitW ctx i && !i.dwmFails

/-- Predicate `hitW`, looked up through a handle. -/
def hitH (ctx : Ctx) (I : List WinInfo) (h : Nat) : Bool :=
  match findInfo I h with
  | none => false
  | some i =>
    !(i.gaParent != 0 && i.gaParent != ctx.desktop) &&
    !(i.threadId == 0 || i.pid != ctx.currentPid) && eligInfo h i

/-- Predicate `succW`, looked up through a handle. -/
def succH (ctx : Ctx) (I : List WinInfo) (h : Nat) : Bool :=
  hitH ctx I h &&
    (match findInfo I h with
     | none => false
     | some i => !i.dwmFails)

/-- Set the attribute and request a redraw: the successful branch of
`ApplyDarkMode` as seen by one window. -/
def bump (b : Bool) (w : Window) : Window :=
  { w with darkAttr := b, redrawCount := w.redrawCount + 1 }

/-- The effect of processing handle `h` on one window. -/
def stepF (ctx : Ctx) (b : Bool) (I : List WinInfo) (h : Nat) (v : Window) : Window :=
  if succH ctx I h && (v.info.hwnd == h) then bump b v else v

/-- The effect of processing a list of handles on one window. -/
def multiBump (ctx : Ctx) (b : Bool) (I : List WinInfo) (hs : List Nat) (w : Window) : Window :=
  hs.foldl (fun v h => stepF ctx b I h v) w

/-- The handle snapshot `EnumWindows` iterates over. -/
def handlesOf (s : St) : List Nat := s.windows.map (fun w => w.info.hwnd)

/-- The window has a titlebar/caption region (`WS_CAPTION` test of the code). -/
def hasCaption (s : St) (h : Nat) : Bool :=
  getWindowLongStyle s h &&& WS_CAPTION != 0

/-- The window is a tool window (`WS_EX_TOOLWINDOW` test of the code). -/
def isToolWindow (s : St) (h : Nat) : Bool :=
  getWindowLongExStyle s h &&& WS_EX_TOOLWINDOW != 0

/-- The window is a child window (`WS_CHILD` test of the code). -/
def isChildWindow (s : St) (h : Nat) : Bool :=
  getWindowLongStyle s h &&& WS_CHILD != 0

/-! Concrete instances used by witnesses and counterexamples -/

/-- An eligible top-level window of process 7 whose attribute sets succeed. -/
def wEl : Window :=
  { info := { hwnd := 1, live := true, style := WS_CAPTION, exStyle := 0,
              gaParent := 0, threadId := 3, pid := 7, dwmFails := false },
    darkAttr := false, redrawCount := 0 }

/-- A window owned by another process (pid 8). -/
def wOther : Window :=
  { info := { hwnd := 2, live := true, style := WS_CAPTION, exStyle := 0,
              gaParent := 0, threadId := 3, pid := 8, dwmFails := false },
    darkAttr := false, redrawCount := 0 }

/-- An ineligible tool window of process 7. -/
def wTool : Window :=
  { info := { hwnd := 3, live := true, style := WS_CAPTION, exStyle := WS_EX_TOOLWINDOW,
              gaParent := 0, threadId := 3, pid := 7, dwmFails := false },
    darkAttr := false, redrawCount := 0 }

/-- An eligible window of process 7 whose `DwmSetWindowAttribute` call fails. -/
def wFail : Window :=
  { info := { hwnd := 4, live := true, style := WS_CAPTION, exStyle := 0,
              gaParent := 0, threadId := 3, pid := 7, dwmFails := true },
    darkAttr := false, redrawCount := 0 }

/-- A process state of process 7 with four windows and the exclusion decision
already cached as "not excluded". -/
def stW : St :=
  { gProbe := false, gIsDarkMode := false, exclCache := some false,
    windows := [wEl, wOther, wTool, wFail], attrSetCalls := 0, logCount := 5 }

/-- A context whose registry read fails and whose probe cannot be resolved. -/
def ctxW : Ctx :=
  { desktop := 100, currentPid := 7, regOpenOk := false, regQuery := none,
    uxthemeLoaded := false, probeAvail := false, probeRet := 0, exePath := none,
    win32uLoaded := true, ntUserCreateAddrOk := true,
    origDefWindowProc := fun _ _ _ _ => 0,
    origCreateWindow := fun _ s => (0, s) }

/-- A context whose registry read succeeds with value 0 (dark). -/
def ctxReg0 : Ctx := { ctxW with regOpenOk := true, regQuery := some 0 }

/-- A context whose registry read succeeds with value 1 (light). -/
def ctxReg1 : Ctx := { ctxW with regOpenOk := true, regQuery := some 1 }

lemma findWin_info (s : St) (h : Nat) :
    (findWin s h).map (fun w => w.info) = findInfo (infos s) h := by
  simp only [findWin, findInfo, infos, List.find?_map]
  rfl

lemma stepF_info (ctx : Ctx) (b : Bool) (I : List WinInfo) (h : Nat) (v : Window) :
    (stepF ctx b I h v).info = v.info := by
  unfold stepF bump; split <;> rfl

lemma bump_info (b : Bool) (w : Window) : (bump b w).info = w.info := rfl

lemma multiBump_info (ctx : Ctx) (b : Bool) (I : List WinInfo) (hs : List Nat) (w : Window) :
    (multiBump ctx b I hs w).info = w.info := by
  induction hs generalizing w with
  | nil => rfl
  | cons h t ih => rw [multiBump, List.foldl_cons, ← multiBump, ih, stepF_info]

lemma isWindowEligible_none {s : St} {h : Nat} (hfw : findWin s h = none) :
    isWindowEligible s h = false := by
  simp [isWindowEligible, isWindow, hfw]

lemma isWindowEligible_some {s : St} {h : Nat} {w : Window} (hfw : findWin s h = some w) :
    isWindowEligible s h = eligInfo h w.info := by
  unfold isWindowEligible isWindow getWindowLongStyle getWindowLongExStyle eligInfo
  rw [hfw]
  cases hc0 : (h == 0) <;> cases hlive : w.info.live <;>
    cases hcap : (w.info.style &&& WS_CAPTION == 0) <;>
    cases htool : (w.info.exStyle &&& WS_EX_TOOLWINDOW != 0) <;>
    cases hchild : (w.info.style &&& WS_CHILD != 0) <;>
    simp [hc0, hlive, hcap, htool, hchild]

lemma applyDarkMode_none {s : St} {h : Nat} (b : Bool) (hfw : findWin s h = none) :
    applyDarkMode s h b = s := by
  simp [applyDarkMode, isWindowEligible_none hfw]

lemma applyDarkMode_some {s : St} {h : Nat} {w : Window} (b : Bool)
    (hfw : findWin s h = some w) :
    applyDarkMode s h b =
      if eligInfo h w.info then
        if w.info.dwmFails then { s with attrSetCalls := s.attrSetCalls + 1 }
        else
          { s with
            windows := s.windows.map (fun v => if v.info.hwnd == h then bump b v else v),
            attrSetCalls := s.attrSetCalls + 1,
            logCount := s.logCount + 1 }
      else s := by
  unfold applyDarkMode
  rw [isWindowEligible_some hfw]
  cases helig : eligInfo h w.info with
  | false => simp
  | true =>
    cases hdwm : w.info.dwmFails with
    | true => simp [dwmSetWindowAttribute, hfw, hdwm]
    | false =>
      simp only [Bool.not_true, dwmSetWindowAttribute, hfw, hdwm, Bool.false_eq_true,
        if_true, if_false, ite_true, ite_false, whLog, setWindowPosFrameChanged]
      simp only [List.map_map, if_true]
      have hfun :
          ((fun v : Window => if (v.info.hwnd == h) = true then
              { info := v.info, darkAttr := v.darkAttr, redrawCount := v.redrawCount + 1 } else v) ∘
            (fun v : Window => if (v.info.hwnd == h) = true then
              { info := v.info, darkAttr := b, redrawCount := v.redrawCount } else v)) =
            fun v => if (v.info.hwnd == h) = true then bump b v else v := by
        funext v
        by_cases hv : (v.info.hwnd == h) <;> simp [Function.comp, hv, bump]
      rw [hfun]

lemma map_stepF_false {ctx : Ctx} {b : Bool} {I : List WinInfo} {h : Nat}
    (hns : succH ctx I h = false) (ws : List Window) :
    ws.map (stepF ctx b I h) = ws := by
  have h1 : ∀ v ∈ ws, stepF ctx b I h v = id v := by
    intro v _; simp [stepF, hns]
  rw [List.map_congr_left h1, List.map_id]

/-- One `EnumWindowsProc` callback, characterized per window: every window
whose handle matches and for which the attribute-set succeeds is bumped, the
call counter advances when the filters and eligibility pass, the log when the
set succeeds. -/
lemma enumWindowsProc_eq (ctx : Ctx) (b : Bool) (s : St) (h : Nat) :
    enumWindowsProc ctx b s h =
      { s with
        windows := s.windows.map (stepF ctx b (infos s) h),
        attrSetCalls := s.attrSetCalls + (if hitH ctx (infos s) h then 1 else 0),
        logCount := s.logCount + (if succH ctx (infos s) h then 1 else 0) } := by
  have hfi := findWin_info s h
  cases hfw : findWin s h with
  | none =>
    have hni : findInfo (infos s) h = none := by rw [← hfi, hfw]; rfl
    have hns : succH ctx (infos s) h = false := by simp [succH, hitH, hni]
    unfold enumWindowsProc getAncestorParent getWindowThreadId getWindowPid
    simp [hfw, hitH, hni, hns, map_stepF_false hns]
  | some w =>
    have hsi : findInfo (infos s) h = some w.info := by rw [← hfi, hfw]; rfl
    unfold enumWindowsProc getAncestorParent getWindowThreadId getWindowPid
    simp only [hfw]
    cases h1 : (w.info.gaParent != 0 && w.info.gaParent != ctx.desktop) with
    | true =>
      have hnh : hitH ctx (infos s) h = false := by simp [hitH, hsi, h1]
      have hns : succH ctx (infos s) h = false := by simp [succH, hnh]
      simp [hnh, hns, map_stepF_false hns]
    | false =>
      cases h2 : (w.info.threadId == 0 || w.info.pid != ctx.currentPid) with
      | true =>
        have hnh : hitH ctx (infos s) h = false := by simp [hitH, hsi, h2]
        have hns : succH ctx (infos s) h = false := by simp [succH, hnh]
        simp [hnh, hns, map_stepF_false hns]
      | false =>
        simp only [if_false, Bool.false_eq_true, ite_false]
        rw [applyDarkMode_some b hfw]
        cases helig : eligInfo h w.info with
        | false =>
          have hnh : hitH ctx (infos s) h = false := by simp [hitH, hsi, h1, h2, helig]
          have hns : succH ctx (infos s) h = false := by simp [succH, hnh]
          simp [hnh, hns, map_stepF_false hns]
        | true =>
          have hh : hitH ctx (infos s) h = true := by simp [hitH, hsi, h1, h2, helig]
          cases hdwm : w.info.dwmFails with
          | true =>
            have hns : succH ctx (infos s) h = false := by simp [succH, hitH, hsi, h1, h2, helig, hdwm]
            simp [hh, hns, map_stepF_false hns]
          | false =>
            have hs2 : succH ctx (infos s) h = true := by
              simp [succH, hitH, hsi, h1, h2, helig, hdwm]
            have hfun : ∀ v ∈ s.windows,
                (if v.info.hwnd = h then bump b v else v) = stepF ctx b (infos s) h v := by
              intro v _
              by_cases hv : v.info.hwnd = h <;> simp [stepF, hs2, hv]
            simp [hh, hs2, List.map_congr_left hfun]

lemma infos_map_stepF (ctx : Ctx) (b : Bool) (I : List WinInfo) (h : Nat) (ws : List Window) :
    (ws.map (stepF ctx b I h)).map (fun w => w.info) = ws.map (fun w => w.info) := by
  rw [List.map_map]
  apply List.map_congr_left
  intro v _
  simp [Function.comp, stepF_info]

/-- Folding the callback over a handle snapshot, characterized per window. -/
lemma foldl_enum_eq (ctx : Ctx) (b : Bool) (hs : List Nat) (s : St) :
    hs.foldl (enumWindowsProc ctx b) s =
      { s with
        windows := s.windows.map (multiBump ctx b (infos s) hs),
        attrSetCalls := s.attrSetCalls + hs.countP (fun h => hitH ctx (infos s) h),
        logCount := s.logCount + hs.countP (fun h => succH ctx (infos s) h) } := by
  induction hs generalizing s with
  | nil =>
    have h1 : ∀ v ∈ s.windows, multiBump ctx b (infos s) [] v = id v := fun v _ => rfl
    simp [List.map_congr_left h1]
  | cons h t ih =>
    rw [List.foldl_cons, enumWindowsProc_eq, ih]
    have hinfos :
        infos { s with
          windows := s.windows.map (stepF ctx b (infos s) h),
          attrSetCalls := s.attrSetCalls + (if hitH ctx (infos s) h then 1 else 0),
          logCount := s.logCount + (if succH ctx (infos s) h then 1 else 0) } = infos s := by
      simp only [infos]
      exact infos_map_stepF ctx b (infos s) h s.windows
    rw [hinfos]
    have hws : (s.windows.map (stepF ctx b (infos s) h)).map (multiBump ctx b (infos s) t) =
        s.windows.map (multiBump ctx b (infos s) (h :: t)) := by
      rw [List.map_map]
      apply List.map_congr_left
      intro v _
      simp [Function.comp, multiBump, List.foldl_cons]
    rw [hws]
    simp [List.countP_cons]
    constructor <;> · split <;> omega

/-- Processing a handle list that never mentions this window's handle leaves
the window unchanged. -/
lemma multiBump_not_mem {ctx : Ctx} {b : Bool} {I : List WinInfo} {hs : List Nat} {w : Window}
    (hm : w.info.hwnd ∉ hs) :
    multiBump ctx b I hs w = w := by
  induction hs with
  | nil => rfl
  | cons h t ih =>
    have hne : w.info.hwnd ≠ h := by intro he; exact hm (he ▸ List.mem_cons_self h t)
    have hstep : stepF ctx b I h w = w := by
      simp [stepF, hne]
    rw [multiBump, List.foldl_cons, ← multiBump, hstep]
    exact ih (fun hc => hm (List.mem_cons_of_mem h hc))

/-- Processing a handle list that mentions this window's handle exactly once
bumps it exactly when the attribute set succeeds. -/
lemma multiBump_split {ctx : Ctx} {b : Bool} {I : List WinInfo} {l1 l2 : List Nat} {w : Window}
    (h1 : w.info.hwnd ∉ l1) (h2 : w.info.hwnd ∉ l2) :
    multiBump ctx b I (l1 ++ w.info.hwnd :: l2) w =
      if succH ctx I w.info.hwnd then bump b w else w := by
  have ha : multiBump ctx b I (l1 ++ w.info.hwnd :: l2) w =
      multiBump ctx b I (w.info.hwnd :: l2) (multiBump ctx b I l1 w) := by
    simp [multiBump, List.foldl_append]
  rw [ha, multiBump_not_mem h1, multiBump, List.foldl_cons, ← multiBump]
  cases hsu : succH ctx I w.info.hwnd with
  | false =>
    have hstep : stepF ctx b I w.info.hwnd w = w := by simp [stepF, hsu]
    rw [hstep, multiBump_not_mem h2]
    simp
  | true =>
    have hstep : stepF ctx b I w.info.hwnd w = bump b w := by simp [stepF, hsu]
    rw [hstep]
    have h2b : (bump b w).info.hwnd ∉ l2 := by rw [bump_info]; exact h2
    rw [multiBump_not_mem h2b]
    simp

/-- Looking an element's own key up in a key-deduplicated list finds it. -/
lemma findInfo_self {I : List WinInfo} {i : WinInfo}
    (hnd : (I.map (fun j => j.hwnd)).Nodup) (hmem : i ∈ I) :
    findInfo I i.hwnd = some i := by
  induction I with
  | nil => cases hmem
  | cons j t ih =>
    rw [List.map_cons, List.nodup_cons] at hnd
    cases hje : (j.hwnd == i.hwnd) with
    | true =>
      have hji : j.hwnd = i.hwnd := by simpa using hje
      have hij : i = j := by
        rcases List.mem_cons.mp hmem with he | ht
        · exact he
        · exact absurd (hji ▸ List.mem_map_of_mem (fun k => k.hwnd) ht) hnd.1
      simp [findInfo, List.find?_cons, hje, hij]
    | false =>
      have hit : i ∈ t := by
        rcases List.mem_cons.mp hmem with he | ht
        · subst he; simp at hje
        · exact ht
      have := ih hnd.2 hit
      simp only [findInfo, List.find?_cons, hje]
      exact this

lemma hitH_self {ctx : Ctx} {s : St} {w : Window}
    (hnd : (handlesOf s).Nodup) (hmem : w ∈ s.windows) :
    hitH ctx (infos s) w.info.hwnd = hitW ctx w.info := by
  have hnd2 : ((infos s).map (fun j => j.hwnd)).Nodup := by
    simpa [infos, handlesOf, List.map_map, Function.comp] using hnd
  have hmem2 : w.info ∈ infos s := List.mem_map_of_mem (fun v => v.info) hmem
  rw [hitH, findInfo_self hnd2 hmem2]
  rfl

lemma succH_self {ctx : Ctx} {s : St} {w : Window}
    (hnd : (handlesOf s).Nodup) (hmem : w ∈ s.windows) :
    succH ctx (infos s) w.info.hwnd = succW ctx w.info := by
  have hnd2 : ((infos s).map (fun j => j.hwnd)).Nodup := by
    simpa [infos, handlesOf, List.map_map, Function.comp] using hnd
  have hmem2 : w.info ∈ infos s := List.mem_map_of_mem (fun v => v.info) hmem
  rw [succH, findInfo_self hnd2 hmem2, hitH_self hnd hmem, succW]

/-- Master characterization of `ApplyToAllWindows` for a window system with
pairwise-distinct handles: each window is bumped exactly once when its
attribute set succeeds, the attribute-set counter advances once per window
passing the filters and the eligibility check, and the log once per
successful set.  Nothing else in the state changes. -/
lemma applyToAllWindows_eq (ctx : Ctx) (s : St) (b : Bool) (hnd : (handlesOf s).Nodup) :
    applyToAllWindows ctx s b =
      { s with
        windows := s.windows.map (fun w => if succW ctx w.info then bump b w else w),
        attrSetCalls := s.attrSetCalls + s.windows.countP (fun w => hitW ctx w.info),
        logCount := s.logCount + s.windows.countP (fun w => succW ctx w.info) } := by
  rw [applyToAllWindows, foldl_enum_eq]
  have hws : s.windows.map (multiBump ctx b (infos s) (s.windows.map (fun w => w.info.hwnd))) =
      s.windows.map (fun w => if succW ctx w.info then bump b w else w) := by
    apply List.map_congr_left
    intro w hw
    have hmem : w.info.hwnd ∈ s.windows.map (fun v => v.info.hwnd) :=
      List.mem_map_of_mem (fun v => v.info.hwnd) hw
    obtain ⟨l1, l2, hsplit⟩ := List.append_of_mem hmem
    have hnd' : (l1 ++ w.info.hwnd :: l2).Nodup := by
      rw [handlesOf] at hnd; rw [hsplit] at hnd; exact hnd
    have h1 : w.info.hwnd ∉ l1 := by
      have := (List.nodup_append.mp hnd').2.2
      intro hc
      exact this hc (List.mem_cons_self _ _)
    have h2 : w.info.hwnd ∉ l2 := by
      have := (List.nodup_append.mp hnd').2.1
      rw [List.nodup_cons] at this
      exact this.1
    rw [hsplit, multiBump_split h1 h2, succH_self hnd hw]
  have hcnt : (s.windows.map (fun w => w.info.hwnd)).countP (fun h => hitH ctx (infos s) h) =
      s.windows.countP (fun w => hitW ctx w.info) := by
    rw [List.countP_map]
    apply List.countP_congr
    intro w hw
    simp only [Function.comp]
    rw [hitH_self hnd hw]
  have hcnt2 : (s.windows.map (fun w => w.info.hwnd)).countP (fun h => succH ctx (infos s) h) =
      s.windows.countP (fun w => succW ctx w.info) := by
    rw [List.countP_map]
    apply List.countP_congr
    intro w hw
    simp only [Function.comp]
    rw [succH_self hnd hw]
  rw [hws, hcnt, hcnt2]

/-! Frame lemmas: which state components each function can touch -/

lemma isProcessExcluded_preserves (ctx : Ctx) (s : St) :
    ((isProcessExcluded ctx s).2.1).gProbe = s.gProbe ∧
    ((isProcessExcluded ctx s).2.1).gIsDarkMode = s.gIsDarkMode ∧
    ((isProcessExcluded ctx s).2.1).windows = s.windows ∧
    ((isProcessExcluded ctx s).2.1).attrSetCalls = s.attrSetCalls := by
  cases hc : s.exclCache with
  | some b => simp [isProcessExcluded, hc]
  | none =>
    cases hp : ctx.exePath with
    | none => simp [isProcessExcluded, hc, hp]
    | some path =>
      by_cases hm : baseNameLower path ∈ excludedProcesses <;>
        simp [isProcessExcluded, hc, hp, hm, whLog]

lemma isSystemDarkModeFallback_preserves (ctx : Ctx) (s : St) :
    ((isSystemDarkModeFallback ctx s).2.1).gIsDarkMode = s.gIsDarkMode ∧
    ((isSystemDarkModeFallback ctx s).2.1).exclCache = s.exclCache ∧
    ((isSystemDarkModeFallback ctx s).2.1).windows = s.windows ∧
    ((isSystemDarkModeFallback ctx s).2.1).attrSetCalls = s.attrSetCalls ∧
    ((isSystemDarkModeFallback ctx s).2.1).logCount = s.logCount := by
  cases hgp : s.gProbe <;> cases hux : ctx.uxthemeLoaded <;>
    cases hpa : ctx.probeAvail <;> simp [isSystemDarkModeFallback, hgp, hux, hpa]

lemma isSystemDarkMode_preserves (ctx : Ctx) (s : St) :
    ((isSystemDarkMode ctx s).2.1).gIsDarkMode = s.gIsDarkMode ∧
    ((isSystemDarkMode ctx s).2.1).exclCache = s.exclCache ∧
    ((isSystemDarkMode ctx s).2.1).windows = s.windows ∧
    ((isSystemDarkMode ctx s).2.1).attrSetCalls = s.attrSetCalls ∧
    ((isSystemDarkMode ctx s).2.1).logCount = s.logCount := by
  cases hro : ctx.regOpenOk with
  | false => simpa [isSystemDarkMode, hro] using isSystemDarkModeFallback_preserves ctx s
  | true =>
    cases hq : ctx.regQuery with
    | none => simpa [isSystemDarkMode, hro, hq] using isSystemDarkModeFallback_preserves ctx s
    | some v => simp [isSystemDarkMode, hro, hq]

lemma applyDarkMode_preserves (s : St) (h : Nat) (b : Bool) :
    (applyDarkMode s h b).gProbe = s.gProbe ∧
    (applyDarkMode s h b).gIsDarkMode = s.gIsDarkMode ∧
    (applyDarkMode s h b).exclCache = s.exclCache := by
  cases hfw : findWin s h with
  | none => simp [applyDarkMode_none b hfw]
  | some w =>
    rw [applyDarkMode_some b hfw]
    cases helig : eligInfo h w.info <;> cases hdwm : w.info.dwmFails <;> simp [helig, hdwm]

lemma applyToAllWindows_preserves (ctx : Ctx) (s : St) (b : Bool) :
    (applyToAllWindows ctx s b).gProbe = s.gProbe ∧
    (applyToAllWindows ctx s b).gIsDarkMode = s.gIsDarkMode ∧
    (applyToAllWindows ctx s b).exclCache = s.exclCache := by
  rw [applyToAllWindows, foldl_enum_eq]
  exact ⟨rfl, rfl, rfl⟩

lemma newWindowShown_gIsDarkMode (ctx : Ctx) (s : St) (h : Nat) :
    (newWindowShown ctx s h).gIsDarkMode = s.gIsDarkMode := by
  simp only [newWindowShown]
  have hex := isProcessExcluded_preserves ctx s
  split
  · exact hex.2.1
  · split
    · exact hex.2.1
    · split
      · exact hex.2.1
      · rw [(applyDarkMode_preserves _ _ _).2.1]
        exact hex.2.1

/-! Theme-oracle helper lemmas -/

lemma isSystemDarkMode_attempted (ctx : Ctx) (s : St) :
    (isSystemDarkMode ctx s).2.2 = true ↔
      ((ctx.regOpenOk = false ∨ ctx.regQuery = none) ∧ s.gProbe = false) := by
  cases hro : ctx.regOpenOk with
  | true =>
    cases hq : ctx.regQuery with
    | some v => simp [isSystemDarkMode, hro, hq]
    | none =>
      cases hgp : s.gProbe <;> cases hux : ctx.uxthemeLoaded <;>
        cases hpa : ctx.probeAvail <;>
        simp [isSystemDarkMode, isSystemDarkModeFallback, hro, hq, hgp, hux, hpa]
  | false =>
    cases hgp : s.gProbe <;> cases hux : ctx.uxthemeLoaded <;>
      cases hpa : ctx.probeAvail <;>
      simp [isSystemDarkMode, isSystemDarkModeFallback, hro, hgp, hux, hpa]

lemma isSystemDarkMode_gProbe (ctx : Ctx) (s : St) :
    ((isSystemDarkMode ctx s).2.1).gProbe =
      (s.gProbe || ((!ctx.regOpenOk || ctx.regQuery.isNone) &&
        ctx.uxthemeLoaded && ctx.probeAvail)) := by
  cases hro : ctx.regOpenOk with
  | true =>
    cases hq : ctx.regQuery with
    | some v => simp [isSystemDarkMode, hro, hq]
    | none =>
      cases hgp : s.gProbe <;> cases hux : ctx.uxthemeLoaded <;>
        cases hpa : ctx.probeAvail <;>
        simp [isSystemDarkMode, isSystemDarkModeFallback, hro, hq, hgp, hux, hpa]
  | false =>
    cases hgp : s.gProbe <;> cases hux : ctx.uxthemeLoaded <;>
      cases hpa : ctx.probeAvail <;>
      simp [isSystemDarkMode, isSystemDarkModeFallback, hro, hgp, hux, hpa]

/-! Claim theorems -/

/-- C2: `IsSystemDarkMode` returns dark when the persisted preference reads 0,
light on any non-zero value (immediately, with no probe resolution and no
state change), falls back to the capability probe when the read fails
(returning the probe's non-zero test when the probe is or becomes resolved),
and returns light when the probe is also unavailable. -/
theorem c2_theme_oracle (ctx : Ctx) (s : St) :
    (ctx.regOpenOk = true → ctx.regQuery = some 0 →
      isSystemDarkMode ctx s = (true, s, false)) ∧
    (∀ v : Nat, ctx.regOpenOk = true → ctx.regQuery = some v → v ≠ 0 →
      isSystemDarkMode ctx s = (false, s, false)) ∧
    ((ctx.regOpenOk = false ∨ ctx.regQuery = none) →
      (s.gProbe = true ∨ (ctx.uxthemeLoaded = true ∧ ctx.probeAvail = true) →
        (isSystemDarkMode ctx s).1 = decide (ctx.probeRet ≠ 0)) ∧
      (s.gProbe = false → ctx.uxthemeLoaded = false ∨ ctx.probeAvail = false →
        (isSystemDarkMode ctx s).1 = false)) := by
  refine ⟨?_, ?_, ?_⟩
  · intro hro hq
    simp [isSystemDarkMode, hro, hq]
  · intro v hro hq hv
    simp [isSystemDarkMode, hro, hq, Nat.pos_of_ne_zero, hv]
  · intro hreg
    have hred : isSystemDarkMode ctx s = isSystemDarkModeFallback ctx s := by
      rcases hreg with hro | hq
      · simp [isSystemDarkMode, hro]
      · cases hro : ctx.regOpenOk <;> simp [isSystemDarkMode, hro, hq]
    rw [hred]
    constructor
    · intro hp
      rcases hp with hgp | ⟨hux, hpa⟩
      · simp [isSystemDarkModeFallback, hgp]
      · cases hgp : s.gProbe <;>
          simp [isSystemDarkModeFallback, hgp, hux, hpa]
    · intro hgp hres
      rcases hres with hux | hpa
      · simp [isSystemDarkModeFallback, hgp, hux]
      · cases hux : ctx.uxthemeLoaded <;>
          simp [isSystemDarkModeFallback, hgp, hux, hpa]

/-- C2 witness: the theorem applied at concrete inputs; registry value 0 is
dark, value 1 is light, and with a failed read and no probe the result is
light. -/
theorem c2_theme_oracle_witness :
    ctxReg0.regOpenOk = true ∧
    isSystemDarkMode ctxReg0 stW = (true, stW, false) ∧
    isSystemDarkMode ctxReg1 stW = (false, stW, false) ∧
    (isSystemDarkMode ctxW stW).1 = false :=
  ⟨rfl, (c2_theme_oracle ctxReg0 stW).1 rfl rfl,
    (c2_theme_oracle ctxReg1 stW).2.1 1 rfl rfl (by decide),
    ((c2_theme_oracle ctxW stW).2.2 (Or.inl rfl)).2 rfl (Or.inl rfl)⟩

/-- C7 counterexample: the claim "if resolution fails, the unavailable state
is cached and no later call retries the resolution" is false on the code.
With a failing registry read and `uxtheme.dll` unavailable, the first call
attempts a resolution, the failed resolution leaves the cached pointer null,
and the very next call attempts the resolution again. -/
theorem c7_counterexample :
    (isSystemDarkMode ctxW stW).2.2 = true ∧
    ((isSystemDarkMode ctxW stW).2.1).gProbe = false ∧
    (isSystemDarkMode ctxW ((isSystemDarkMode ctxW stW).2.1)).2.2 = true := by
  exact ⟨rfl, rfl, rfl⟩

/-- C7 (amended): a probe resolution is attempted exactly when the fallback
path runs with a still-null pointer; a successful resolution is memoized and
no later call re-resolves; but a failed resolution is not cached — whenever
the pointer is still null after a call, any later call that takes the
fallback path retries the lookup. -/
theorem c7_probe_resolution (ctx ctx2 : Ctx) (s : St) :
    ((isSystemDarkMode ctx s).2.2 = true ↔
      ((ctx.regOpenOk = false ∨ ctx.regQuery = none) ∧ s.gProbe = false)) ∧
    (s.gProbe = true → ((isSystemDarkMode ctx s).2.1).gProbe = true) ∧
    (((isSystemDarkMode ctx s).2.1).gProbe = true →
      (isSystemDarkMode ctx2 ((isSystemDarkMode ctx s).2.1)).2.2 = false) ∧
    (((isSystemDarkMode ctx s).2.1).gProbe = false →
      (ctx2.regOpenOk = false ∨ ctx2.regQuery = none) →
      (isSystemDarkMode ctx2 ((isSystemDarkMode ctx s).2.1)).2.2 = true) := by
  refine ⟨isSystemDarkMode_attempted ctx s, ?_, ?_, ?_⟩
  · intro hgp
    rw [isSystemDarkMode_gProbe, hgp]
    simp
  · intro hgp
    cases hval : (isSystemDarkMode ctx2 ((isSystemDarkMode ctx s).2.1)).2.2 with
    | false => rfl
    | true =>
      have := (isSystemDarkMode_attempted ctx2 _).mp hval
      rw [hgp] at this
      exact absurd this.2 (by simp)
  · intro hgp hreg2
    exact (isSystemDarkMode_attempted ctx2 _).mpr ⟨hreg2, hgp⟩

/-- C7 witness: the amended theorem applied at concrete inputs. -/
theorem c7_probe_resolution_witness :
    ({ stW with gProbe := true } : St).gProbe = true ∧
    ((isSystemDarkMode ctxW { stW with gProbe := true }).2.1).gProbe = true ∧
    (isSystemDarkMode ctxW ((isSystemDarkMode ctxW { stW with gProbe := true }).2.1)).2.2 = false :=
  ⟨rfl, (c7_probe_resolution ctxW ctxW { stW with gProbe := true }).2.1 rfl,
    (c7_probe_resolution ctxW ctxW { stW with gProbe := true }).2.2.1
      ((c7_probe_resolution ctxW ctxW { stW with gProbe := true }).2.1 rfl)⟩

/-- C3: `IsWindowEligible` returns true exactly for a non-null handle of a
live window that has a caption, is not a tool window and is not a child
window; and `ApplyDarkMode` leaves the state completely unchanged on every
handle the filter rejects. -/
theorem c3_window_eligibility (s : St) (h : Nat) :
    (isWindowEligible s h = true ↔
      (h ≠ 0 ∧ isWindow s h = true ∧ hasCaption s h = true ∧
        isToolWindow s h = false ∧ isChildWindow s h = false)) ∧
    (∀ b : Bool, isWindowEligible s h = false → applyDarkMode s h b = s) := by
  constructor
  · unfold isWindowEligible hasCaption isToolWindow isChildWindow
    cases hc0 : (h == 0) <;> cases hw : isWindow s h <;>
      cases hcap : (getWindowLongStyle s h &&& WS_CAPTION == 0) <;>
      cases htool : (getWindowLongExStyle s h &&& WS_EX_TOOLWINDOW != 0) <;>
      cases hchild : (getWindowLongStyle s h &&& WS_CHILD != 0) <;>
      simp_all [bne_eq_false_iff_eq]
  · intro b he
    simp [applyDarkMode, he]

/-- C3 witness: the theorem applied at a concrete ineligible handle (the tool
window), showing `ApplyDarkMode` leaves the whole state unchanged there. -/
theorem c3_window_eligibility_witness :
    isWindowEligible stW 3 = false ∧ applyDarkMode stW 3 true = stW :=
  ⟨by decide, (c3_window_eligibility stW 3).2 true (by decide)⟩

/-- C8 counterexample: the claim says a failed attribute-set is logged, but
the code logs only on success.  On a concrete eligible window whose
`DwmSetWindowAttribute` call fails, the call is made, it fails, and the log
is left untouched. -/
theorem c8_counterexample :
    isWindowEligible stW 4 = true ∧
    (dwmSetWindowAttribute stW 4 true).1 = false ∧
    (applyDarkMode stW 4 true).logCount = stW.logCount := by
  exact ⟨by decide, by decide, by decide⟩

/-- C8 (amended): when the attribute-set call inside `ApplyDarkMode` fails,
the window's state — attribute and redraw state included — is left unchanged,
no retry is performed within that call (the call counter advances exactly
once), and, contrary to the claim, nothing is logged. -/
theorem c8_attr_set_failure (s : St) (h : Nat) (b : Bool) (w : Window)
    (hfw : findWin s h = some w) (helig : isWindowEligible s h = true)
    (hfail : w.info.dwmFails = true) :
    applyDarkMode s h b = { s with attrSetCalls := s.attrSetCalls + 1 } := by
  have he : eligInfo h w.info = true := by
    rw [← isWindowEligible_some hfw]; exact helig
  rw [applyDarkMode_some b hfw, he, hfail]
  simp

/-- C8 witness: the amended theorem applied at the concrete failing window:
windows, redraw counters and the log stay as they were; only the call
counter advances once. -/
theorem c8_attr_set_failure_witness :
    findWin stW 4 = some wFail ∧ isWindowEligible stW 4 = true ∧
    wFail.info.dwmFails = true ∧
    applyDarkMode stW 4 true = { stW with attrSetCalls := stW.attrSetCalls + 1 } :=
  ⟨by decide, by decide, by decide,
    c8_attr_set_failure stW 4 true wFail (by decide) (by decide) (by decide)⟩

/-- C5: one `ApplyToAllWindows` pass touches a window's state only if it is
top-level (parent absent or the desktop), belongs to the current process, and
passes the eligibility check; every window of another process keeps its exact
state, and the attribute-set counter advances exactly once per window passing
the filters. -/
theorem c5_enum_scope (ctx : Ctx) (s : St) (b : Bool) (hnd : (handlesOf s).Nodup) :
    (applyToAllWindows ctx s b).windows =
      s.windows.map (fun w => if succW ctx w.info then bump b w else w) ∧
    (applyToAllWindows ctx s b).attrSetCalls =
      s.attrSetCalls + s.windows.countP (fun w => hitW ctx w.info) ∧
    (∀ i : WinInfo, hitW ctx i = true →
      (i.gaParent = 0 ∨ i.gaParent = ctx.desktop) ∧ i.pid = ctx.currentPid) ∧
    (∀ w : Window, w.info.pid ≠ ctx.currentPid →
      (if succW ctx w.info then bump b w else w) = w) := by
  have hpid : ∀ i : WinInfo, hitW ctx i = true →
      (i.gaParent = 0 ∨ i.gaParent = ctx.desktop) ∧ i.pid = ctx.currentPid := by
    intro i hi
    unfold hitW at hi
    simp only [Bool.and_eq_true, Bool.not_eq_true', Bool.and_eq_false_iff,
      Bool.or_eq_false_iff, bne_eq_false_iff_eq, beq_eq_false_iff_ne, ne_eq] at hi
    obtain ⟨⟨hpar, ⟨htid, hp⟩⟩, _⟩ := hi
    refine ⟨?_, hp⟩
    rcases hpar with h0 | hd
    · exact Or.inl h0
    · exact Or.inr hd
  rw [applyToAllWindows_eq ctx s b hnd]
  refine ⟨rfl, rfl, hpid, ?_⟩
  intro w hw
  cases hsw : succW ctx w.info with
  | false => simp
  | true =>
    exfalso
    have : hitW ctx w.info = true := by
      unfold succW at hsw
      exact (Bool.and_eq_true _ _ |>.mp hsw).1
    exact hw (hpid w.info this).2

/-- C5 witness: the theorem applied at the concrete four-window state:
exactly two attribute-set calls happen (the eligible window and the
failing-but-eligible window), and the other-process window is untouched. -/
theorem c5_enum_scope_witness :
    (handlesOf stW).Nodup ∧
    (applyToAllWindows ctxW stW true).attrSetCalls =
      stW.attrSetCalls + stW.windows.countP (fun w => hitW ctxW w.info) ∧
    (if succW ctxW wOther.info then bump true wOther else wOther) = wOther :=
  ⟨by decide, (c5_enum_scope ctxW stW true (by decide)).2.1,
    (c5_enum_scope ctxW stW true (by decide)).2.2.2 wOther (by decide)⟩

/-- C4: running `ApplyToAllWindows` twice with the same argument leaves every
window, after the second pass, with exactly the OS facts and attribute it had
after the first pass; only the redraw counters (the repeated redraw) can
differ. -/
theorem c4_apply_twice_idempotent (ctx : Ctx) (s : St) (b : Bool)
    (hnd : (handlesOf s).Nodup) :
    (applyToAllWindows ctx (applyToAllWindows ctx s b) b).windows.map
        (fun w => (w.info, w.darkAttr)) =
      (applyToAllWindows ctx s b).windows.map (fun w => (w.info, w.darkAttr)) := by
  have hw1 : (applyToAllWindows ctx s b).windows =
      s.windows.map (fun w => if succW ctx w.info then bump b w else w) := by
    rw [applyToAllWindows_eq ctx s b hnd]
  have hhnd1 : (handlesOf (applyToAllWindows ctx s b)).Nodup := by
    have hh : handlesOf (applyToAllWindows ctx s b) = handlesOf s := by
      unfold handlesOf
      rw [hw1, List.map_map]
      apply List.map_congr_left
      intro w _
      cases hsw : succW ctx w.info <;> simp [Function.comp, hsw, bump]
    rw [hh]; exact hnd
  have hw2 : (applyToAllWindows ctx (applyToAllWindows ctx s b) b).windows =
      (applyToAllWindows ctx s b).windows.map
        (fun w => if succW ctx w.info then bump b w else w) := by
    rw [applyToAllWindows_eq ctx (applyToAllWindows ctx s b) b hhnd1]
  rw [hw2, hw1, List.map_map, List.map_map, List.map_map]
  apply List.map_congr_left
  intro w _
  cases hsw : succW ctx w.info with
  | false => simp [Function.comp, hsw]
  | true => simp [Function.comp, hsw, bump]

/-- C4 witness: the theorem applied at the concrete four-window state. -/
theorem c4_apply_twice_idempotent_witness :
    (handlesOf stW).Nodup ∧
    (applyToAllWindows ctxW (applyToAllWindows ctxW stW true) true).windows.map
        (fun w => (w.info, w.darkAttr)) =
      (applyToAllWindows ctxW stW true).windows.map (fun w => (w.info, w.darkAttr)) :=
  ⟨by decide, c4_apply_twice_idempotent ctxW stW true (by decide)⟩

/-- C1: on a theme-change message in a non-excluded process the hook
re-queries `IsSystemDarkMode`; when the result equals the cached
`g_isDarkMode` no attribute-set call is made, the cache keeps its value and
no window changes; when it differs, the cache takes the new value and exactly
one attribute-set call is made per eligible top-level window of the current
process (the `hitW` windows). -/
theorem c1_theme_change_message (ctx : Ctx) (s : St) (hW Msg wP lP : Nat)
    (hmsg : Msg = WM_DWMCOLORIZATIONCOLORCHANGED ∨ Msg = WM_SETTINGCHANGE)
    (hexcl : (isProcessExcluded ctx s).1 = false)
    (hnd : (handlesOf s).Nodup) :
    ((isSystemDarkMode ctx (isProcessExcluded ctx s).2.1).1 = s.gIsDarkMode →
      (defWindowProc_hook ctx s hW Msg wP lP).2.attrSetCalls = s.attrSetCalls ∧
      (defWindowProc_hook ctx s hW Msg wP lP).2.windows = s.windows ∧
      (defWindowProc_hook ctx s hW Msg wP lP).2.gIsDarkMode = s.gIsDarkMode) ∧
    ((isSystemDarkMode ctx (isProcessExcluded ctx s).2.1).1 ≠ s.gIsDarkMode →
      (defWindowProc_hook ctx s hW Msg wP lP).2.gIsDarkMode =
        (isSystemDarkMode ctx (isProcessExcluded ctx s).2.1).1 ∧
      (defWindowProc_hook ctx s hW Msg wP lP).2.attrSetCalls =
        s.attrSetCalls + s.windows.countP (fun w => hitW ctx w.info)) := by
  have hmsgb : (Msg == WM_DWMCOLORIZATIONCOLORCHANGED || Msg == WM_SETTINGCHANGE) = true := by
    rcases hmsg with h | h <;> simp [h]
  have hpres := isProcessExcluded_preserves ctx s
  have hdpres := isSystemDarkMode_preserves ctx (isProcessExcluded ctx s).2.1
  have hgd : ((isSystemDarkMode ctx (isProcessExcluded ctx s).2.1).2.1).gIsDarkMode =
      s.gIsDarkMode := by rw [hdpres.1, hpres.2.1]
  have hwin : ((isSystemDarkMode ctx (isProcessExcluded ctx s).2.1).2.1).windows =
      s.windows := by rw [hdpres.2.2.1, hpres.2.2.1]
  have hattr : ((isSystemDarkMode ctx (isProcessExcluded ctx s).2.1).2.1).attrSetCalls =
      s.attrSetCalls := by rw [hdpres.2.2.2.1, hpres.2.2.2]
  simp only [defWindowProc_hook, hexcl, hmsgb, Bool.not_false, Bool.true_and, if_true, hgd]
  constructor
  · intro heq
    have hne : ((isSystemDarkMode ctx (isProcessExcluded ctx s).2.1).1 !=
        s.gIsDarkMode) = false := by simp [heq]
    rw [hne]
    simp only [Bool.false_eq_true, ite_false]
    exact ⟨hattr, hwin, hgd⟩
  · intro hne
    have hbne : ((isSystemDarkMode ctx (isProcessExcluded ctx s).2.1).1 !=
        s.gIsDarkMode) = true := by simp [hne]
    rw [hbne]
    simp only [ite_true]
    have hnd3 : (handlesOf (whLog
        { (isSystemDarkMode ctx (isProcessExcluded ctx s).2.1).2.1 with
          gIsDarkMode := (isSystemDarkMode ctx (isProcessExcluded ctx s).2.1).1 })).Nodup := by
      unfold handlesOf whLog
      simp only [hwin]
      exact hnd
    rw [applyToAllWindows_eq _ _ _ hnd3]
    simp [whLog, hwin, hattr]

/-- C1 witness: the theorem applied at concrete inputs.  With a failing
registry read the re-queried theme equals the cached light state and no
attribute-set call happens; with registry value 0 the re-queried theme is
dark, the cache flips and exactly one call per filtered window happens. -/
theorem c1_theme_change_message_witness :
    ((isProcessExcluded ctxW stW).1 = false ∧
      (defWindowProc_hook ctxW stW 1 WM_SETTINGCHANGE 0 0).2.attrSetCalls =
        stW.attrSetCalls) ∧
    ((isProcessExcluded ctxReg0 stW).1 = false ∧
      (defWindowProc_hook ctxReg0 stW 1 WM_SETTINGCHANGE 0 0).2.gIsDarkMode =
        (isSystemDarkMode ctxReg0 (isProcessExcluded ctxReg0 stW).2.1).1 ∧
      (defWindowProc_hook ctxReg0 stW 1 WM_SETTINGCHANGE 0 0).2.attrSetCalls =
        stW.attrSetCalls + stW.windows.countP (fun w => hitW ctxReg0 w.info)) :=
  ⟨⟨by decide,
    ((c1_theme_change_message ctxW stW 1 WM_SETTINGCHANGE 0 0 (Or.inr rfl)
      (by decide) (by decide)).1 (by decide)).1⟩,
   ⟨by decide,
    ((c1_theme_change_message ctxReg0 stW 1 WM_SETTINGCHANGE 0 0 (Or.inr rfl)
      (by decide) (by decide)).2 (by decide)).1,
    ((c1_theme_change_message ctxReg0 stW 1 WM_SETTINGCHANGE 0 0 (Or.inr rfl)
      (by decide) (by decide)).2 (by decide)).2⟩⟩

/-- C6: both hooks are transparent: the creation hook delegates to the
original on the incoming state first, returns its handle unaltered, and only
post-processes; the message hook returns exactly the original handler's
value — for every input, excluded or not. -/
theorem c6_hooks_transparent (ctx : Ctx) (s : St) (a : CreateArgs) (hW Msg wP lP : Nat) :
    (ntUserCreateWindowEx_hook ctx s a).1 = (ctx.origCreateWindow a s).1 ∧
    (ntUserCreateWindowEx_hook ctx s a).2 =
      (if (ctx.origCreateWindow a s).1 != 0 then
        newWindowShown ctx (ctx.origCreateWindow a s).2 (ctx.origCreateWindow a s).1
      else (ctx.origCreateWindow a s).2) ∧
    (defWindowProc_hook ctx s hW Msg wP lP).1 = ctx.origDefWindowProc hW Msg wP lP :=
  ⟨rfl, rfl, rfl⟩

/-- C9: if the executable-name query fails on the first `IsProcessExcluded`
call, the process is classified not-excluded and that decision is cached;
every later call (whatever the context then reports) returns not-excluded
without re-querying. -/
theorem c9_exe_query_failure (ctx ctx2 : Ctx) (s : St)
    (hcache : s.exclCache = none) (hpath : ctx.exePath = none) :
    isProcessExcluded ctx s = (false, { s with exclCache := some false }, true) ∧
    (∀ s2 : St, s2.exclCache = some false → isProcessExcluded ctx2 s2 = (false, s2, false)) ∧
    isProcessExcluded ctx2 ((isProcessExcluded ctx s).2.1) =
      (false, (isProcessExcluded ctx s).2.1, false) := by
  have h1 : isProcessExcluded ctx s = (false, { s with exclCache := some false }, true) := by
    simp [isProcessExcluded, hcache, hpath]
  refine ⟨h1, ?_, ?_⟩
  · intro s2 h2
    simp [isProcessExcluded, h2]
  · rw [h1]
    simp [isProcessExcluded]

/-- C9 witness: the theorem applied at a concrete state with an uncomputed
cache and a failing executable-name query. -/
theorem c9_exe_query_failure_witness :
    ({ stW with exclCache := none } : St).exclCache = none ∧ ctxW.exePath = none ∧
    isProcessExcluded ctxW { stW with exclCache := none } =
      (false, { stW with exclCache := some false }, true) :=
  ⟨rfl, rfl, (c9_exe_query_failure ctxW ctxW { stW with exclCache := none } rfl rfl).1⟩

/-- C10: the cached theme state `g_isDarkMode` is written in exactly two
places: `Wh_ModInit` (from the initial oracle query, unless the process is
excluded), and the message hook when the re-queried theme differs from the
cache.  `ApplyDarkMode`, `ApplyToAllWindows`, `NewWindowShown`, the creation
hook (beyond whatever the original creation call itself does), the exclusion
check, the oracle itself, `Wh_ModAfterInit` and `Wh_ModUninit` all leave it
unchanged. -/
theorem c10_cache_mutation_sites (ctx : Ctx) (s : St) (h : Nat) (b : Bool)
    (a : CreateArgs) (hW Msg wP lP : Nat) :
    (applyDarkMode s h b).gIsDarkMode = s.gIsDarkMode ∧
    (applyToAllWindows ctx s b).gIsDarkMode = s.gIsDarkMode ∧
    (newWindowShown ctx s h).gIsDarkMode = s.gIsDarkMode ∧
    (ntUserCreateWindowEx_hook ctx s a).2.gIsDarkMode =
      ((ctx.origCreateWindow a s).2).gIsDarkMode ∧
    ((isProcessExcluded ctx s).2.1).gIsDarkMode = s.gIsDarkMode ∧
    ((isSystemDarkMode ctx s).2.1).gIsDarkMode = s.gIsDarkMode ∧
    (wh_ModAfterInit ctx s).gIsDarkMode = s.gIsDarkMode ∧
    (wh_ModUninit ctx s).gIsDarkMode = s.gIsDarkMode ∧
    ((defWindowProc_hook ctx s hW Msg wP lP).2.gIsDarkMode =
      if ((!(isProcessExcluded ctx s).1 &&
            (Msg == WM_DWMCOLORIZATIONCOLORCHANGED || Msg == WM_SETTINGCHANGE)) &&
          ((isSystemDarkMode ctx (isProcessExcluded ctx s).2.1).1 != s.gIsDarkMode)) = true
      then (isSystemDarkMode ctx (isProcessExcluded ctx s).2.1).1
      else s.gIsDarkMode) ∧
    ((wh_ModInit ctx s).2.gIsDarkMode =
      if (isProcessExcluded ctx (whLog (whLog s))).1 = true then s.gIsDarkMode
      else (isSystemDarkMode ctx (isProcessExcluded ctx (whLog (whLog s))).2.1).1) := by
  have hpres := isProcessExcluded_preserves ctx s
  have hdpres := isSystemDarkMode_preserves ctx (isProcessExcluded ctx s).2.1
  have hgd : ((isSystemDarkMode ctx (isProcessExcluded ctx s).2.1).2.1).gIsDarkMode =
      s.gIsDarkMode := by rw [hdpres.1, hpres.2.1]
  refine ⟨(applyDarkMode_preserves s h b).2.1, (applyToAllWindows_preserves ctx s b).2.1,
    newWindowShown_gIsDarkMode ctx s h, ?_, hpres.2.1,
    (isSystemDarkMode_preserves ctx s).1, ?_, ?_, ?_, ?_⟩
  · simp only [ntUserCreateWindowEx_hook]
    split
    · exact newWindowShown_gIsDarkMode ctx _ _
    · rfl
  · simp only [wh_ModAfterInit]
    split
    · exact hpres.2.1
    · rw [whLog, (applyToAllWindows_preserves ctx _ _).2.1]
      exact hpres.2.1
  · simp only [wh_ModUninit]
    split
    · exact hpres.2.1
    · rw [whLog, (applyToAllWindows_preserves ctx _ _).2.1]
      exact hpres.2.1
  · simp only [defWindowProc_hook]
    cases hc : (!(isProcessExcluded ctx s).1 &&
        (Msg == WM_DWMCOLORIZATIONCOLORCHANGED || Msg == WM_SETTINGCHANGE)) with
    | false =>
      simp only [hc, Bool.false_eq_true, ite_false, Bool.false_and]
      exact hpres.2.1
    | true =>
      simp only [hc, ite_true, Bool.true_and, hgd]
      cases hb2 : ((isSystemDarkMode ctx (isProcessExcluded ctx s).2.1).1 !=
          s.gIsDarkMode) with
      | false =>
        simp only [hb2, Bool.false_eq_true, ite_false]
        exact hgd
      | true =>
        simp only [hb2, ite_true]
        rw [(applyToAllWindows_preserves ctx _ _).2.1, whLog]
  · simp only [wh_ModInit]
    have hpres0 := isProcessExcluded_preserves ctx (whLog (whLog s))
    split
    · rw [whLog, whLog, hpres0.2.1]
      rfl
    · rw [whLog]
      split
      · rw [whLog, whLog]
      · split
        · rw [whLog, whLog]
        · rw [whLog, whLog, whLog, whLog]

end AutoDark
